import Mathlib

/-!
A shallow embedding of the P/L tracker (`app.py`) sufficient to settle the
behavioural claims about its ledger, metric computation, account management,
CSV-import handling and persistence helpers.

Conventions of the embedding:
* The ledger CSV (`df_all`) is a list of rows in insertion order; the position of a row
  in in the list is its insertion sequence number.
* The `Date` column of a row is represented by the result of parsing it with
  `pd.to_datetime(..., errors="coerce")`: `some d` (a day ordinal) when the
  stored string parses, `none` when it does not (pandas `NaT`).
* `PL` amounts, balances and targets are rationals (the source uses IEEE
  doubles; every claim here is about exact arithmetic identities on small
  decimal inputs, where the two agree).
* `pd.DataFrame.sort_values` is modelled by the stable `List.mergeSort`;
  on the frames these claims exercise the library sort preserves the
  relative order of equal keys, which is the behaviour the model fixes.
-/

/-- Model of one row of the tracker CSV: parsed `Date`, `Account`, `PL`. -/
structure Row where
  date : Option Nat
  account : String
  pl : ℚ
deriving DecidableEq, Repr

/-- Model of `np.clip(x, lo, hi)`: clamp below at `lo`, then above at `hi`. -/
def clip (x lo hi : ℚ) : ℚ := min (max x lo) hi

/-- Model of `df_all[df_all["Account"] == selected_account]` (app.py line 205). -/
def accountRows (rows : List Row) (acc : String) : List Row :=
  rows.filter (fun r => r.account == acc)

/-- Model of `df_acc` after `to_datetime(errors="coerce")`, the call
`dropna(subset=["Date"])` and `sort_values("Date")` (app.py lines 205-210):
the rows of the account that carry a
parseable date, sorted by date. For an empty selection the code rebuilds an
empty frame, which coincides with filtering/sorting the empty list. -/
def dfAcc (rows : List Row) (acc : String) : List Row :=
  ((accountRows rows acc).filter (fun r => r.date.isSome)).mergeSort
    (fun a b => a.date.getD 0 ≤ b.date.getD 0)

/-- Model of `cum_profit = float(df_acc["PL"].sum()) if not df_acc.empty else 0.0`
(app.py line 212); the empty sum is itself `0`. -/
def cum_profit (rows : List Row) (acc : String) : ℚ :=
  ((dfAcc rows acc).map (fun r => r.pl)).sum

/-- Model of `current_balance = float(sb + cum_profit)` (app.py line 213). -/
def current_balance (sb : ℚ) (rows : List Row) (acc : String) : ℚ :=
  sb + cum_profit rows acc

/-- Model of `target_profit = max(tb - sb, 1e-9)` (app.py line 214). -/
def target_profit (sb tb : ℚ) : ℚ :=
  max (tb - sb) (1 / 1000000000)

/-- Model of `pct_to_target = float(np.clip((current_balance - sb) / target_profit
* 100.0, 0.0, 100.0))` (app.py line 215). -/
def pct_to_target (sb tb cb : ℚ) : ℚ :=
  clip ((cb - sb) / target_profit sb tb * 100) 0 100

/-- Whether the sidebar shows "Target Balance must be greater than Starting
Balance." (app.py lines 131-132). -/
def tbErrorShown (sb tb : ℚ) : Bool := tb ≤ sb

/-- Model of `df_acc["CumPL"] = df_acc["PL"].cumsum()` (app.py line 273): running
sums of a list of rationals. -/
def cumsum (l : List ℚ) : List ℚ :=
  (l.scanl (· + ·) 0).tail

/-- The per-row running balances of the series of one account: the starting
balance plus each entry of the `CumPL` column of the code. -/
def balanceSeries (sb : ℚ) (rows : List Row) (acc : String) : List ℚ :=
  (cumsum ((dfAcc rows acc).map (fun r => r.pl))).map (fun c => sb + c)

/-- Modelled from the spec: the progress ratio the specification prescribes,
`clamp(current_balance / profit_target, 0, 1)` — kept solely to compare with
the `pct_to_target` of the code. -/
def specProgress (cb tgt : ℚ) : ℚ := clip (cb / tgt) 0 1

/-- The "Undo Last Entry" handler (app.py lines 157-166): select the rows of
the account, take the index of the `tail(1)` row (the row of the account with
the greatest position in `df_all`), and drop it when it exists. The Bool records
whether a row was removed (`len(idx)` nonzero). -/
def undoLast (rows : List Row) (acc : String) : List Row × Bool :=
  match rows with
  | [] => ([], false)
  | r :: rs =>
    let p := undoLast rs acc
    if p.2 then (r :: p.1, true)
    else if r.account == acc then (rs, true) else (r :: rs, false)

/-- The "Add" handler (app.py lines 146-155): `pd.concat([df_all, new_row],
ignore_index=True)` appends the new row at the end. Dates entered through the
date picker always parse, hence `some d`. -/
def addEntry (rows : List Row) (acc : String) (d : Nat) (pl : ℚ) : List Row :=
  rows ++ [⟨some d, acc, pl⟩]

/-- Model of `df_display` (app.py lines 291-295): a copy of the whole ledger (`PL`
reformatted for display only), sorted by `["Account", "Date"]` ascending. -/
def displayRows (rows : List Row) : List Row :=
  rows.mergeSort (fun a b =>
    decide (a.account < b.account ∨ (a.account = b.account ∧ a.date.getD 0 ≤ b.date.getD 0)))

/-- Per-account configuration (`settings["account_cfg"][acc]`): starting
balance and target balance. -/
structure Config where
  starting_balance : ℚ
  target_balance : ℚ
deriving DecidableEq, Repr

/-- The defaults used whenever an account is (re)registered
(app.py lines 95 and 114). -/
def defaultConfig : Config := ⟨1000, 2000⟩

/-- The settings document: the account list (`settings["accounts"]`, in
insertion order) and the per-account config map (`settings["account_cfg"]`,
a dict modelled as an association list keyed by account). -/
structure Settings where
  accounts : List String
  account_cfg : List (String × Config)
deriving DecidableEq, Repr

/-- The full in-memory state the handlers mutate: the ledger frame `df_all`
and the `settings` document. -/
structure AppState where
  ledger : List Row
  settings : Settings
deriving DecidableEq, Repr

/-- The "Add" account handler (app.py lines 111-117): append the name to the
account list and seed the default config, only when not already present. -/
def addAccount (s : Settings) (acc : String) : Settings :=
  if acc ∈ s.accounts then s
  else ⟨s.accounts ++ [acc], s.account_cfg ++ [(acc, defaultConfig)]⟩

/-- The "Remove" account handler (app.py lines 119-125): when the account is
in the list, `list.remove` deletes its first occurrence and
`dict.pop(acc, None)` drops its config entry; the ledger is not touched. -/
def removeAccount (s : Settings) (acc : String) : Settings :=
  if acc ∈ s.accounts then
    ⟨s.accounts.erase acc, s.account_cfg.filter (fun p => p.1 ≠ acc)⟩
  else s

/-- Function `removeAccount` lifted to the whole app state: the handler only rewrites
`settings` (via `save_settings`); `df_all` is untouched. -/
def removeAccountState (st : AppState) (acc : String) : AppState :=
  ⟨st.ledger, removeAccount st.settings acc⟩

/-- Function `addAccount` lifted to the whole app state. -/
def addAccountState (st : AppState) (acc : String) : AppState :=
  ⟨st.ledger, addAccount st.settings acc⟩

/-- Model of `settings["account_cfg"].get(acc)`: config lookup for one account. -/
def lookupCfg (s : Settings) (acc : String) : Option Config :=
  (s.account_cfg.find? (fun p => p.1 == acc)).map (fun p => p.2)

/-- An uploaded CSV as pandas sees it after `pd.read_csv`: its column names
and its rows. -/
structure Frame where
  columns : List String
  rows : List Row
deriving Repr

/-- Model of `required = \x7b"Date", "Account", "PL"\x7d` (app.py line 180). -/
def requiredCols : List String := ["Date", "Account", "PL"]

/-- The column check and store replacement of the import handler
(app.py lines 179-183): when a required column is missing a `ValueError`
is raised; otherwise the uploaded frame becomes the new ledger. -/
def importCSV (frame : Frame) : Except String (List Row) :=
  if requiredCols.all (fun c => frame.columns.contains c) then .ok frame.rows
  else .error "CSV must have columns: Date, Account, PL"

/-- The import handler around `importCSV` (app.py lines 177-188): on success
`save_df(df_new)` replaces the ledger wholesale; the `except` arm only shows
an error, leaving `df_all` as it was. -/
def applyImport (store : List Row) (frame : Frame) : List Row :=
  match importCSV frame with
  | .ok rows => rows
  | .error _ => store

/-- The durable filesystem: a map from path to file contents. -/
structure FS where
  files : String → Option String

/-- Path constant `CSV_FILE = os.path.join(DATA_DIR, "tracker.csv")` (line 17). -/
def CSV_FILE : String := "data/tracker.csv"

/-- Path constant `SETTINGS_FILE = os.path.join(DATA_DIR, "settings.json")`. -/
def SETTINGS_FILE : String := "data/settings.json"

/-- Path constant `BACKUP_DIR = os.path.join(DATA_DIR, "backups")` (line 19). -/
def BACKUP_DIR : String := "data/backups"

/-- Model of `os.path.basename`: the characters after the last slash. -/
def basename (p : String) : String :=
  ⟨p.data.foldl (fun acc c => if c = '/' then [] else acc ++ [c]) []⟩

/-- The backup path `os.path.join(BACKUP_DIR, f"{base}.{ts}.bak")` built at
app.py lines 30-32, for the timestamp string `ts`. -/
def backupPath (path ts : String) : String :=
  BACKUP_DIR ++ "/" ++ basename path ++ "." ++ ts ++ ".bak"

/-- Write one file (`open(..., "wb").write` / `to_csv` / `json.dump`). -/
def writeFile (fs : FS) (path content : String) : FS :=
  ⟨fun q => if q = path then some content else fs.files q⟩

/-- Model of `backup_file(path)` (app.py lines 27-34): when the path exists, copy its
bytes to the timestamped backup path; otherwise do nothing. -/
def backup_file (fs : FS) (path ts : String) : FS :=
  match fs.files path with
  | some c => writeFile fs (backupPath path ts) c
  | none => fs

/-- A CSV serialisation of the ledger frame (`df.to_csv(index=False)`);
its exact text is irrelevant to the claims, only that it is the new
content of `CSV_FILE`. -/
def encodeCSV (rows : List Row) : String :=
  String.intercalate "\x0a"
    ("Date,Account,PL" :: rows.map (fun r =>
      (match r.date with | some d => toString d | none => "") ++ ","
        ++ r.account ++ "," ++ toString r.pl))

/-- A JSON serialisation of the settings document (`json.dump`); as with
`encodeCSV` only its role as the new content of `SETTINGS_FILE` matters. -/
def encodeSettings (s : Settings) : String :=
  String.intercalate ","
    (s.accounts ++ s.account_cfg.map (fun p =>
      p.1 ++ ":" ++ toString p.2.starting_balance ++ ":" ++ toString p.2.target_balance))

/-- Model of `save_df(df)` (app.py lines 78-80): back the current CSV up, then
overwrite it with the new frame. -/
def save_df (fs : FS) (df : List Row) (ts : String) : FS :=
  writeFile (backup_file fs CSV_FILE ts) CSV_FILE (encodeCSV df)

/-- Model of `save_settings(settings)` (app.py lines 65-67): back the settings file
up, then overwrite it. -/
def save_settings (fs : FS) (s : Settings) (ts : String) : FS :=
  writeFile (backup_file fs SETTINGS_FILE ts) SETTINGS_FILE (encodeSettings s)

theorem dfAcc_perm (rows : List Row) (acc : String) :
    List.Perm (dfAcc rows acc)
      (rows.filter (fun r => r.date.isSome && r.account == acc)) := by
  unfold dfAcc accountRows
  rw [List.filter_filter]
  exact List.mergeSort_perm _ _

theorem cum_profit_eq_filter_sum (rows : List Row) (acc : String) :
    cum_profit rows acc
      = ((rows.filter (fun r => r.date.isSome && r.account == acc)).map
          (fun r => r.pl)).sum := by
  unfold cum_profit
  exact ((dfAcc_perm rows acc).map _).sum_eq

theorem undoLast_of_no_row (rows : List Row) (acc : String)
    (h : ∀ r ∈ rows, r.account ≠ acc) : undoLast rows acc = (rows, false) := by
  induction rows with
  | nil => rfl
  | cons r rs ih =>
    have hr : (r.account == acc) = false := by
      simpa using h r (List.mem_cons_self r rs)
    have hrs := ih (fun x hx => h x (List.mem_cons_of_mem r hx))
    simp [undoLast, hrs, hr]

/-- C1: the claim reads the progress metric as `clamp(current_balance /
profit_target, 0, 1)` and predicts `0.5` for a fresh account with
`starting_balance = 500`, `target = 1000` and no entries. The code instead
computes `np.clip((current_balance - sb) / max(tb - sb, 1e-9) * 100, 0, 100)`
(app.py line 215), which is `0` (percent) there — not the 50 percent the
claimed formula yields. -/
theorem C1_counterexample :
    pct_to_target 500 1000 (current_balance 500 [] "Account A") = 0 ∧
    specProgress (current_balance 500 [] "Account A") 1000 = 1 / 2 ∧
    pct_to_target 500 1000 (current_balance 500 [] "Account A")
      ≠ 100 * specProgress (current_balance 500 [] "Account A") 1000 := by
  refine ⟨?_, ?_, ?_⟩ <;>
    norm_num [pct_to_target, specProgress, current_balance, cum_profit, dfAcc,
      accountRows, target_profit, clip]

/-- C1 (amended): whenever `tb - sb ≥ 1e-9` (in particular whenever the
target exceeds the start by at least that epsilon), the progress metric the
code returns is `clip((current_balance - sb) / (tb - sb) * 100, 0, 100)` —
progress of the realised profit towards the profit target, not
`current_balance / target`; a fresh account therefore shows 0 percent. -/
theorem C1_amended (sb tb cb : ℚ) (h : 1 / 1000000000 ≤ tb - sb) :
    pct_to_target sb tb cb = clip ((cb - sb) / (tb - sb) * 100) 0 100 := by
  unfold pct_to_target target_profit
  rw [max_eq_left h]

theorem C1_amended_witness :
    pct_to_target 0 100 50 = clip ((50 - 0) / (100 - 0) * 100) 0 100 :=
  C1_amended 0 100 50 (by norm_num)

/-- C2: the claim says undo removes the entry with maximum
`(date, insertion_sequence)`. On the store holding a day-2 entry followed by
a backdated day-1 entry (both for account `A`), the handler
(app.py lines 157-161) drops the `tail(1)` row — the most recently inserted,
backdated one — keeping the later-dated day-2 entry, while the claim demands
the opposite: the day-2 row removed and the day-1 row kept. -/
theorem C2_counterexample :
    undoLast [⟨some 2, "A", 10⟩, ⟨some 1, "A", 20⟩] "A"
      = ([⟨some 2, "A", 10⟩], true) ∧
    ([⟨some 2, "A", 10⟩] : List Row) ≠ [⟨some 1, "A", 20⟩] := by
  constructor
  · rfl
  · decide

/-- C2 (amended): undo removes exactly the most recently inserted entry
(maximum insertion sequence) of the selected account, regardless of its
date: for any store split as `rows1 ++ e :: rows2` where `e` belongs to the
account and no later-inserted row does, undo drops precisely `e`. -/
theorem C2_amended (rows1 rows2 : List Row) (e : Row) (acc : String)
    (h1 : e.account = acc) (h2 : ∀ r ∈ rows2, r.account ≠ acc) :
    undoLast (rows1 ++ e :: rows2) acc = (rows1 ++ rows2, true) := by
  induction rows1 with
  | nil =>
    have he : (e.account == acc) = true := by simpa using h1
    simp [undoLast, undoLast_of_no_row rows2 acc h2, he]
  | cons r rs ih =>
    simp [undoLast, ih]

theorem C2_amended_witness :
    undoLast
        [⟨some 5, "B", 1⟩, ⟨some 1, "A", 20⟩, ⟨some 9, "B", 2⟩] "A"
      = ([⟨some 5, "B", 1⟩, ⟨some 9, "B", 2⟩], true) :=
  C2_amended [⟨some 5, "B", 1⟩] [⟨some 9, "B", 2⟩] ⟨some 1, "A", 20⟩ "A"
    (by decide) (by decide)

/-- C3: for every starting balance and every store whose rows for the account
all carry a parseable date (which is every entry the app itself writes — the
date picker always yields a valid date), the current-balance metric equals
the starting balance plus the sum of the P/L values of all rows of that
account, pipeline (filter, dropna, sort, sum) notwithstanding. -/
theorem C3_theorem (sb : ℚ) (rows : List Row) (acc : String)
    (h : ∀ r ∈ rows, r.account = acc → r.date.isSome) :
    current_balance sb rows acc
      = sb + ((rows.filter (fun r => r.account == acc)).map (fun r => r.pl)).sum := by
  unfold current_balance
  rw [cum_profit_eq_filter_sum]
  have hfil : rows.filter (fun r => r.date.isSome && r.account == acc)
      = rows.filter (fun r => r.account == acc) := by
    apply List.filter_congr
    intro r hr
    by_cases hacc : r.account = acc
    · have hd := h r hr hacc
      simp [hacc, hd]
    · simp [hacc]
  rw [hfil]

theorem C3_witness :
    current_balance 100
        [⟨some 1, "A", 5⟩, ⟨some 2, "B", 7⟩, ⟨some 3, "A", -2⟩] "A"
      = 100 + ((([⟨some 1, "A", 5⟩, ⟨some 2, "B", 7⟩, ⟨some 3, "A", -2⟩]
          : List Row).filter (fun r => r.account == "A")).map
            (fun r => r.pl)).sum :=
  C3_theorem 100 [⟨some 1, "A", 5⟩, ⟨some 2, "B", 7⟩, ⟨some 3, "A", -2⟩] "A"
    (by decide)

/-- C4: the claim promises a synthetic single-row series (`pl = 0`,
`balance = starting_balance`) for an account with zero entries. The code
instead rebuilds an empty frame (app.py lines 209-210): for a fresh store the
series of `"Account A"` has zero rows, not one, and carries no synthetic
balance row. -/
theorem C4_counterexample :
    dfAcc [] "Account A" = [] ∧
    balanceSeries 500 [] "Account A" = [] ∧
    (balanceSeries 500 [] "Account A").length ≠ 1 := by
  refine ⟨?_, ?_, ?_⟩ <;>
    norm_num [balanceSeries, dfAcc, accountRows, cumsum]

/-- C4 (amended): for an account with zero entries the balance series is
empty (zero rows, no synthetic row); the metric layer instead guards the
empty frame explicitly (`if not df_acc.empty`, app.py lines 206 and 212), so
`cum_profit = 0` and the current balance still equals the starting
balance. -/
theorem C4_amended (sb : ℚ) (rows : List Row) (acc : String)
    (h : ∀ r ∈ rows, r.account ≠ acc) :
    dfAcc rows acc = [] ∧ balanceSeries sb rows acc = []
      ∧ current_balance sb rows acc = sb := by
  have hf : accountRows rows acc = [] := by
    unfold accountRows
    rw [List.filter_eq_nil_iff]
    intro r hr
    simpa using h r hr
  have hd : dfAcc rows acc = [] := by
    unfold dfAcc
    rw [hf]
    simp
  refine ⟨hd, ?_, ?_⟩
  · unfold balanceSeries
    rw [hd]
    simp [cumsum]
  · unfold current_balance cum_profit
    rw [hd]
    norm_num

theorem C4_amended_witness :
    dfAcc [⟨some 1, "B", 5⟩] "C" = []
      ∧ balanceSeries 500 [⟨some 1, "B", 5⟩] "C" = []
      ∧ current_balance 500 [⟨some 1, "B", 5⟩] "C" = 500 :=
  C4_amended 500 [⟨some 1, "B", 5⟩] "C" (by decide)

/-- C5: appending `+100` and then `-40` for `"Account A"` on the same date
keeps two distinct rows in insertion order (the stable sort leaves equal
dates in sequence order), the running balances over a starting balance of
1000 are 1100 then 1060, and the current balance is 1060 — the E1 scenario
of the spec, confirmed against the add handler and metric pipeline. -/
theorem C5_theorem :
    dfAcc (addEntry (addEntry [] "Account A" 1 100) "Account A" 1 (-40))
        "Account A"
      = [⟨some 1, "Account A", 100⟩, ⟨some 1, "Account A", -40⟩] ∧
    balanceSeries 1000
        (addEntry (addEntry [] "Account A" 1 100) "Account A" 1 (-40))
        "Account A"
      = [1100, 1060] ∧
    current_balance 1000
        (addEntry (addEntry [] "Account A" 1 100) "Account A" 1 (-40))
        "Account A"
      = 1060 := by
  refine ⟨?_, ?_, ?_⟩ <;>
    norm_num [addEntry, dfAcc, accountRows, balanceSeries, cumsum,
      current_balance, cum_profit, List.mergeSort, List.scanl]

/-- C6: the claim promises that a degenerate configuration yields a distinct
undefined-metric condition, never a silently computed numeric value. In the
code the degenerate configuration `tb = sb = 1000` (flagged by the sidebar
error) still produces the plain number `0` for the progress metric — the very
same value a perfectly valid configuration (`tb = 2000`) produces at the same
balance, so the caller receives no distinct undefined-metric signal, only an
ordinary clamped number; no percent-gain metric exists in the code at all. -/
theorem C6_counterexample :
    tbErrorShown 1000 1000 = true ∧
    tbErrorShown 1000 2000 = false ∧
    pct_to_target 1000 1000 1000 = 0 ∧
    pct_to_target 1000 2000 1000 = 0 := by
  refine ⟨by norm_num [tbErrorShown], by norm_num [tbErrorShown], ?_, ?_⟩ <;>
    norm_num [pct_to_target, target_profit, clip]

/-- C6 (amended): for every degenerate configuration (`tb ≤ sb`) the sidebar
shows an error message, but the progress metric is nonetheless computed as an
ordinary number: with `target_profit` floored at `1e-9` it equals
`clip((cb - sb) * 10^9 * 100, 0, 100)`; the code never raises a division
fault and never returns a distinct undefined-metric value. -/
theorem C6_amended (sb tb cb : ℚ) (h : tb ≤ sb) :
    tbErrorShown sb tb = true ∧
    pct_to_target sb tb cb = clip ((cb - sb) * 1000000000 * 100) 0 100 := by
  constructor
  · simp [tbErrorShown, h]
  · unfold pct_to_target target_profit
    have hm : max (tb - sb) ((1 : ℚ) / 1000000000) = 1 / 1000000000 :=
      max_eq_right (by linarith)
    rw [hm]
    have harg : (cb - sb) / ((1 : ℚ) / 1000000000) * 100
        = (cb - sb) * 1000000000 * 100 := by
      field_simp
    rw [harg]

theorem C6_amended_witness :
    tbErrorShown 1000 1000 = true ∧
    pct_to_target 1000 1000 1000
      = clip ((1000 - 1000) * 1000000000 * 100) 0 100 :=
  C6_amended 1000 1000 1000 (le_refl 1000)

/-- C7: when any of the three required columns is missing the import handler
raises before `save_df` runs, so the ledger is left unchanged and a
validation failure is reported; when all three are present the uploaded
frame replaces the entire ledger. -/
theorem C7_theorem (store : List Row) (frame : Frame) :
    (¬ (∀ c ∈ requiredCols, c ∈ frame.columns) →
      applyImport store frame = store
        ∧ ∃ msg, importCSV frame = Except.error msg) ∧
    ((∀ c ∈ requiredCols, c ∈ frame.columns) →
      applyImport store frame = frame.rows) := by
  constructor
  · intro h
    constructor
    · simp [applyImport, importCSV, h]
    · exact ⟨"CSV must have columns: Date, Account, PL",
        by simp [importCSV, h]⟩
  · intro h
    have hb : (requiredCols.all fun c => frame.columns.contains c) = true := by
      simpa using h
    unfold applyImport importCSV
    rw [if_pos hb]

theorem C7_witness :
    applyImport [⟨some 1, "A", 5⟩] ⟨["Date", "Account"], []⟩
        = [⟨some 1, "A", 5⟩] ∧
    applyImport [⟨some 1, "A", 5⟩]
        ⟨["Date", "Account", "PL"], [⟨some 2, "B", 7⟩]⟩
      = [⟨some 2, "B", 7⟩] :=
  ⟨((C7_theorem [⟨some 1, "A", 5⟩] ⟨["Date", "Account"], []⟩).1
      (by decide)).1,
    (C7_theorem [⟨some 1, "A", 5⟩]
        ⟨["Date", "Account", "PL"], [⟨some 2, "B", 7⟩]⟩).2 (by decide)⟩

theorem find?_filter_ne_none (l : List (String × Config)) (acc : String) :
    (l.filter (fun p => p.1 ≠ acc)).find? (fun p => p.1 == acc) = none := by
  induction l with
  | nil => rfl
  | cons p ps ih =>
    by_cases hp : p.1 = acc
    · simp [List.filter_cons, hp, ih]
    · simp [List.filter_cons, List.find?_cons, hp, ih]

/-- C8: the Remove handler only rewrites the settings document — the ledger
frame is untouched, the account leaves the registry list, its config entry is
dropped — and re-adding the account afterwards (which reseeds the default
config) leaves the balance series of the account, over any fixed starting
balance, identical to the one before removal: the historical rows survive. -/
theorem C8_theorem (st : AppState) (acc : String) (sb : ℚ)
    (h1 : acc ∈ st.settings.accounts) (h2 : st.settings.accounts.Nodup) :
    (removeAccountState st acc).ledger = st.ledger ∧
    acc ∉ (removeAccountState st acc).settings.accounts ∧
    lookupCfg (removeAccountState st acc).settings acc = none ∧
    balanceSeries sb
        (addAccountState (removeAccountState st acc) acc).ledger acc
      = balanceSeries sb st.ledger acc := by
  refine ⟨rfl, ?_, ?_, rfl⟩
  · unfold removeAccountState removeAccount
    simp only [h1, if_true]
    exact h2.not_mem_erase
  · unfold removeAccountState removeAccount lookupCfg
    simp only [h1, if_true]
    simp [find?_filter_ne_none]

theorem C8_witness :
    (removeAccountState
        ⟨[⟨some 1, "A", 5⟩], ⟨["A", "B"], [("A", ⟨500, 900⟩), ("B", defaultConfig)]⟩⟩
        "A").ledger
      = [⟨some 1, "A", 5⟩] ∧
    "A" ∉ (removeAccountState
        ⟨[⟨some 1, "A", 5⟩], ⟨["A", "B"], [("A", ⟨500, 900⟩), ("B", defaultConfig)]⟩⟩
        "A").settings.accounts ∧
    lookupCfg (removeAccountState
        ⟨[⟨some 1, "A", 5⟩], ⟨["A", "B"], [("A", ⟨500, 900⟩), ("B", defaultConfig)]⟩⟩
        "A").settings "A" = none ∧
    balanceSeries 500
        (addAccountState (removeAccountState
          ⟨[⟨some 1, "A", 5⟩], ⟨["A", "B"], [("A", ⟨500, 900⟩), ("B", defaultConfig)]⟩⟩
          "A") "A").ledger "A"
      = balanceSeries 500 [⟨some 1, "A", 5⟩] "A" :=
  C8_theorem
    ⟨[⟨some 1, "A", 5⟩], ⟨["A", "B"], [("A", ⟨500, 900⟩), ("B", defaultConfig)]⟩⟩
    "A" 500 (by decide) (by decide)

/-- C9: a stored row whose `Date` fails to parse (pandas `NaT`) is silently
dropped by `dropna` before the metrics: removing it from the store changes
neither `cum_profit` nor `current_balance` nor the progress metric — its
P/L is simply not counted — yet the row stays in the durable store and in
the displayed entries table, which are built from the unfiltered frame. -/
theorem C9_theorem (rows1 rows2 : List Row) (r : Row) (acc : String)
    (sb tb : ℚ) (h : r.date = none) :
    cum_profit (rows1 ++ r :: rows2) acc = cum_profit (rows1 ++ rows2) acc ∧
    current_balance sb (rows1 ++ r :: rows2) acc
      = current_balance sb (rows1 ++ rows2) acc ∧
    pct_to_target sb tb (current_balance sb (rows1 ++ r :: rows2) acc)
      = pct_to_target sb tb (current_balance sb (rows1 ++ rows2) acc) ∧
    r ∈ rows1 ++ r :: rows2 ∧
    r ∈ displayRows (rows1 ++ r :: rows2) := by
  have hc : cum_profit (rows1 ++ r :: rows2) acc
      = cum_profit (rows1 ++ rows2) acc := by
    rw [cum_profit_eq_filter_sum, cum_profit_eq_filter_sum]
    simp [List.filter_append, List.filter_cons, h]
  have hm : r ∈ rows1 ++ r :: rows2 :=
    List.mem_append_right rows1 (List.mem_cons_self r rows2)
  refine ⟨hc, ?_, ?_, hm, ?_⟩
  · unfold current_balance
    rw [hc]
  · unfold current_balance
    rw [hc]
  · unfold displayRows
    exact (List.mergeSort_perm _ _).mem_iff.mpr hm

theorem C9_witness :
    cum_profit [⟨some 1, "A", 5⟩, ⟨none, "A", 999⟩, ⟨some 2, "A", 7⟩] "A"
      = cum_profit [⟨some 1, "A", 5⟩, ⟨some 2, "A", 7⟩] "A" ∧
    current_balance 100 [⟨some 1, "A", 5⟩, ⟨none, "A", 999⟩, ⟨some 2, "A", 7⟩] "A"
      = current_balance 100 [⟨some 1, "A", 5⟩, ⟨some 2, "A", 7⟩] "A" ∧
    pct_to_target 100 200
        (current_balance 100
          [⟨some 1, "A", 5⟩, ⟨none, "A", 999⟩, ⟨some 2, "A", 7⟩] "A")
      = pct_to_target 100 200
          (current_balance 100 [⟨some 1, "A", 5⟩, ⟨some 2, "A", 7⟩] "A") ∧
    (⟨none, "A", 999⟩ : Row)
        ∈ [⟨some 1, "A", 5⟩, ⟨none, "A", 999⟩, ⟨some 2, "A", 7⟩] ∧
    (⟨none, "A", 999⟩ : Row)
        ∈ displayRows [⟨some 1, "A", 5⟩, ⟨none, "A", 999⟩, ⟨some 2, "A", 7⟩] :=
  C9_theorem [⟨some 1, "A", 5⟩] [⟨some 2, "A", 7⟩] ⟨none, "A", 999⟩ "A"
    100 200 rfl

theorem backupPath_ne_csv (ts : String) : backupPath CSV_FILE ts ≠ CSV_FILE := by
  intro hEq
  have hb : basename CSV_FILE = "tracker.csv" := by decide
  have hlen := congrArg String.length hEq
  rw [backupPath, hb] at hlen
  simp only [String.length_append] at hlen
  have e1 : (BACKUP_DIR : String).length = 12 := rfl
  have e2 : ("/" : String).length = 1 := rfl
  have e3 : ("tracker.csv" : String).length = 11 := rfl
  have e4 : ("." : String).length = 1 := rfl
  have e5 : (".bak" : String).length = 4 := rfl
  have e6 : (CSV_FILE : String).length = 16 := rfl
  omega

theorem backupPath_ne_settings (ts : String) :
    backupPath SETTINGS_FILE ts ≠ SETTINGS_FILE := by
  intro hEq
  have hb : basename SETTINGS_FILE = "settings.json" := by decide
  have hlen := congrArg String.length hEq
  rw [backupPath, hb] at hlen
  simp only [String.length_append] at hlen
  have e1 : (BACKUP_DIR : String).length = 12 := rfl
  have e2 : ("/" : String).length = 1 := rfl
  have e3 : ("settings.json" : String).length = 13 := rfl
  have e4 : ("." : String).length = 1 := rfl
  have e5 : (".bak" : String).length = 4 := rfl
  have e6 : (SETTINGS_FILE : String).length = 18 := rfl
  omega

/-- C10: both persisting mutations first run `backup_file` on the file they
are about to overwrite, and `backup_file` copies an existing file to the
timestamped path under the backup directory before the overwrite happens:
whenever the target file exists, its pre-mutation contents survive at the
backup path after `save_df` or `save_settings`. -/
theorem C10_theorem (fs : FS) (df : List Row) (s : Settings) (ts : String)
    (c₁ c₂ : String) :
    (fs.files CSV_FILE = some c₁ →
      (save_df fs df ts).files (backupPath CSV_FILE ts) = some c₁) ∧
    (fs.files SETTINGS_FILE = some c₂ →
      (save_settings fs s ts).files (backupPath SETTINGS_FILE ts) = some c₂) := by
  constructor
  · intro h
    unfold save_df backup_file
    rw [h]
    unfold writeFile
    simp [backupPath_ne_csv ts]
  · intro h
    unfold save_settings backup_file
    rw [h]
    unfold writeFile
    simp [backupPath_ne_settings ts]

theorem C10_witness :
    (save_df
        ⟨fun q => if q = CSV_FILE then some "old csv" else
          if q = SETTINGS_FILE then some "old settings" else none⟩
        [] "ts").files (backupPath CSV_FILE "ts") = some "old csv" ∧
    (save_settings
        ⟨fun q => if q = CSV_FILE then some "old csv" else
          if q = SETTINGS_FILE then some "old settings" else none⟩
        ⟨[], []⟩ "ts").files (backupPath SETTINGS_FILE "ts")
      = some "old settings" :=
  ⟨(C10_theorem
      ⟨fun q => if q = CSV_FILE then some "old csv" else
        if q = SETTINGS_FILE then some "old settings" else none⟩
      [] ⟨[], []⟩ "ts" "old csv" "old settings").1 (by simp),
    (C10_theorem
      ⟨fun q => if q = CSV_FILE then some "old csv" else
        if q = SETTINGS_FILE then some "old settings" else none⟩
      [] ⟨[], []⟩ "ts" "old csv" "old settings").2 (by simp [CSV_FILE, SETTINGS_FILE])⟩
